import Mathlib

/-!
Shallow embedding of the order workflow of the padre-ginos pizza API
(src/server.js): the POST /api/order handler (`createOrder`, with its
cart-merging reduce and its BEGIN/COMMIT/ROLLBACK transaction), the order
readers (GET /api/order and GET /api/past-order/:order_id), the paginated
GET /api/past-orders, and the GET /api/pizza-of-the-day selection rule.

The relational store is modelled at the boundary the spec fixes for it:
parameterized statements, explicit BEGIN/COMMIT/ROLLBACK, and a generated
identifier returned on insert (the handler reads it as `result.lastID`).
JavaScript values that cross the store boundary with a dynamic type
(quantity, price, per-line total) are modelled by `JSVal`; numbers are
modelled as integers, which covers every value these handlers exercise.
-/

namespace PadreGinos

/-- A dynamically typed JavaScript value returned by the store or produced
by the handlers: a number (modelled as an integer), a string, or NaN (the
result of coercing an unparsable string with unary plus). -/
inductive JSVal where
  | num (n : Int)
  | str (s : String)
  | nan
deriving DecidableEq, Repr

/-- String conversion used by the JavaScript binary plus when one operand
is a string. -/
def jsStr : JSVal → String
  | .num n => toString n
  | .str s => s
  | .nan => "NaN"

/-- JavaScript binary plus: numeric addition when both operands are
numbers, string concatenation as soon as one operand is a string. -/
def jsAdd : JSVal → JSVal → JSVal
  | .num a, .num b => .num (a + b)
  | .nan, .num _ => .nan
  | .num _, .nan => .nan
  | .nan, .nan => .nan
  | x, y => .str (jsStr x ++ jsStr y)

/-- Digits of a decimal numeral, most significant first; `none` when a
non-digit appears. -/
def parseDigits : List Char → Nat → Option Nat
  | [], acc => some acc
  | c :: cs, acc =>
    if c.isDigit then parseDigits cs (acc * 10 + (c.toNat - 48))
    else none

/-- An integer numeral with an optional leading minus sign; `none` for
anything else (which the JavaScript unary plus turns into NaN). -/
def parseIntString (s : String) : Option Int :=
  match s.data with
  | [] => none
  | '-' :: rest =>
    match rest with
    | [] => none
    | _ =>
      match parseDigits rest 0 with
      | some n => some (-(n : Int))
      | none => none
  | l =>
    match parseDigits l 0 with
    | some n => some (n : Int)
    | none => none

/-- JavaScript unary plus on the values these handlers see: a number is
unchanged, a string holding an integer numeral parses to that number, any
other string coerces to NaN. -/
def jsToNum : JSVal → JSVal
  | .num n => .num n
  | .nan => .nan
  | .str s =>
    match parseIntString s with
    | some n => .num n
    | none => .nan

/-- One line of the request cart of POST /api/order: `item.pizza.id` and
`item.size`; `none` models a missing field (JavaScript `undefined`). -/
structure CartItem where
  pizzaId : Option Nat
  size : Option String
deriving DecidableEq, Repr

/-- A row of the `orders` table. -/
structure OrderRow where
  orderId : Nat
  date : String
  time : String
deriving DecidableEq, Repr

/-- A row of the `order_details` table; `pizzaId` is the composite
`id_size` string key the handler builds. -/
structure DetailRow where
  orderId : Nat
  pizzaId : String
  quantity : Nat
deriving DecidableEq, Repr

/-- The committed contents of the store as far as order creation is
concerned, together with the next identifier the store will generate for
an inserted order header. -/
structure Store where
  orders : List OrderRow
  details : List DetailRow
  nextOrderId : Nat
deriving DecidableEq, Repr

/-- The JavaScript `toLowerCase` on the size strings these handlers see,
character by character (ASCII case folding). -/
def lowerString (s : String) : String :=
  String.mk (s.data.map Char.toLower)

/-- The composite grouping key the handler builds for a cart line:
`id + "_" + lowercased size`. -/
def itemKey (id : Nat) (size : String) : String :=
  toString id ++ "_" ++ size

/-- Accumulator update of the cart-merging reduce: a JavaScript object
keyed by the composite key, kept as an association list in insertion
order; an existing key has its quantity bumped in place, a new key is
appended with quantity 1. -/
def bump : List (String × Nat) → String → List (String × Nat)
  | [], key => [(key, 1)]
  | (k, q) :: rest, key =>
    if k = key then (k, q + 1) :: rest else (k, q) :: bump rest key

/-- One step of the `cart.reduce` in createOrder (src/server.js lines
210-225): reading `item.size.toLowerCase()` of a missing size throws a
TypeError; a falsy id (missing or 0) or a falsy lowercased size (empty
string) throws "Invalid item data"; otherwise the accumulator is bumped at
the composite key. -/
def mergeStep (acc : List (String × Nat)) (item : CartItem) :
    Except String (List (String × Nat)) :=
  match item.size with
  | none => .error "TypeError: toLowerCase of undefined"
  | some s =>
    match item.pizzaId with
    | none => .error "Invalid item data"
    | some id =>
      if id = 0 ∨ lowerString s = "" then .error "Invalid item data"
      else .ok (bump acc (itemKey id (lowerString s)))

/-- The cart-merging reduce of createOrder, as a left fold that can throw. -/
def mergeCart : List CartItem → List (String × Nat) →
    Except String (List (String × Nat))
  | [], acc => .ok acc
  | item :: rest, acc =>
    match mergeStep acc item with
    | .error e => .error e
    | .ok acc2 => mergeCart rest acc2

/-- A cart line that passes the truthiness check of the handler: both fields
present, id nonzero, lowercased size nonempty. -/
def validItem (item : CartItem) : Bool :=
  match item.pizzaId, item.size with
  | some id, some s => decide (id ≠ 0) && decide (lowerString s ≠ "")
  | _, _ => false

/-- The store statements createOrder issues, in order. -/
inductive StoreCall where
  | beginTxn
  | insertOrder (date time : String)
  | insertDetail (orderId : Nat) (pizzaId : String) (quantity : Nat)
  | commit
  | rollback
deriving DecidableEq, Repr

/-- Failure injection for the store: whether the order-header insert
fails, and whether the k-th detail insert (1-indexed) fails. -/
structure FailSpec where
  headerFails : Bool
  detailFails : Nat → Bool

/-- A store that never fails. -/
def noFail : FailSpec where
  headerFails := false
  detailFails := fun _ => false

/-- A store that rejects the second detail insert, the failure the spec
asks to test the rollback with. -/
def failSecond : FailSpec where
  headerFails := false
  detailFails := fun k => k == 2

/-- Outcome of POST /api/order: 200 with the order id, 400 for a bad cart
shape, or 500 after a rollback. -/
inductive CreateResult where
  | ok (orderId : Nat)
  | badRequest (msg : String)
  | serverError (msg : String)
deriving DecidableEq, Repr

/-- The detail-insert loop of createOrder over the merged cart, threading
the pending (uncommitted) store state and the call trace; `none` signals
that an insert failed and the transaction must roll back. -/
def insertDetails (fs : FailSpec) (oid : Nat) :
    List (String × Nat) → Nat → Store → List StoreCall →
    Option Store × List StoreCall
  | [], _, pending, tr => (some pending, tr)
  | (key, qty) :: rest, k, pending, tr =>
    if fs.detailFails k then
      (none, tr ++ [.insertDetail oid key qty])
    else
      insertDetails fs oid rest (k + 1)
        { pending with details := pending.details ++ [⟨oid, key, qty⟩] }
        (tr ++ [.insertDetail oid key qty])

/-- The uncommitted state after BEGIN and the order-header insert: the
header row holds the generated identifier, and the next identifier of the store
has advanced. -/
def pendingStore (st : Store) (date time : String) : Store where
  orders := st.orders ++ [{ orderId := st.nextOrderId, date := date, time := time }]
  details := st.details
  nextOrderId := st.nextOrderId + 1

/-- The POST /api/order handler (src/server.js lines 188-243). `cart` is
`none` when the body carries no array. The cart-shape check runs before
any store call; then BEGIN, the header insert (whose generated identifier
the handler reads back), the merging reduce, the detail inserts and COMMIT
all run inside the try, and any failure takes the catch path: ROLLBACK and
a 500. Returns the response, the committed store afterwards, and the
trace of store calls issued. -/
def createOrder (st : Store) (fs : FailSpec) (cart : Option (List CartItem))
    (date time : String) : CreateResult × Store × List StoreCall :=
  match cart with
  | none => (.badRequest "Invalid order data", st, [])
  | some items =>
    if items.length = 0 then (.badRequest "Invalid order data", st, [])
    else if fs.headerFails then
      (.serverError "Failed to create order", st,
        [.beginTxn, .insertOrder date time, .rollback])
    else
      match mergeCart items [] with
      | .error _ =>
        (.serverError "Failed to create order", st,
          [.beginTxn, .insertOrder date time, .rollback])
      | .ok merged =>
        match insertDetails fs st.nextOrderId merged 1
            (pendingStore st date time)
            [.beginTxn, .insertOrder date time] with
        | (none, tr2) =>
          (.serverError "Failed to create order", st, tr2 ++ [.rollback])
        | (some final, tr2) =>
          (.ok st.nextOrderId, final, tr2 ++ [.commit])

/-- A row of the `pizza_types` table as selected by GET /api/pizza-of-the-day. -/
structure PizzaType where
  id : Nat
  name : String
  category : String
  description : String
deriving DecidableEq, Repr

/-- Outcome of the daily-pick selection: a pizza type, or the TypeError the
handler hits when the indexed row is absent (reading `.id` of undefined);
`emptyCatalog` is the explicit error the spec mandates for an empty
catalog, which this code never produces. -/
inductive PickResult where
  | ok (p : PizzaType)
  | typeError
  | emptyCatalog
deriving DecidableEq, Repr

/-- `Math.floor(Date.now() / 86400000)`: whole days since the Unix epoch,
so a day boundary is a UTC calendar-day boundary. -/
def daysSinceEpoch (nowMs : Nat) : Nat := nowMs / 86400000

/-- The index the handler computes: `daysSinceEpoch % pizzas.rows.length`. -/
def pickIndex (nowMs : Nat) (catalogSize : Nat) : Nat :=
  daysSinceEpoch nowMs % catalogSize

/-- The selection step of GET /api/pizza-of-the-day (src/server.js lines
106-108) on the catalog rows, given the day count: index the rows at
`d % rows.length` and read fields of the selected row. On an empty
catalog the JavaScript index is NaN, the lookup yields undefined, and the
field read throws a TypeError. -/
def dailyPick (d : Nat) (rows : List PizzaType) : PickResult :=
  match rows.get? (d % rows.length) with
  | none => .typeError
  | some p => .ok p

/-- A row returned by the three-way join of the order readers; quantity,
price and the store-computed per-line total arrive as dynamically typed
values. -/
structure RawItem where
  pizzaTypeId : Nat
  name : String
  quantity : JSVal
  price : JSVal
  total : JSVal
  size : String
deriving DecidableEq, Repr

/-- A line item as the readers send it: the joined row plus an image path,
with quantity and price coerced by unary plus. -/
structure OutItem where
  pizzaTypeId : Nat
  name : String
  quantity : JSVal
  price : JSVal
  total : JSVal
  size : String
  image : String
deriving DecidableEq, Repr

/-- The per-item mapping of both order readers (src/server.js lines
172-178 and 294-300): `Object.assign` copies the joined row, then adds the
image path and overwrites quantity and price with their unary-plus
coercions; the per-line total field is left as the store returned it. -/
def formatItem (r : RawItem) : OutItem where
  pizzaTypeId := r.pizzaTypeId
  name := r.name
  quantity := jsToNum r.quantity
  price := jsToNum r.price
  total := r.total
  size := r.size
  image := "/public/pizzas/" ++ toString r.pizzaTypeId ++ ".webp"

/-- The total computed by the readers: the reduce of `acc + item.total` over
the mapped items, with JavaScript plus. -/
def sumTotals (items : List OutItem) : JSVal :=
  items.foldl (fun acc it => jsAdd acc it.total) (.num 0)

/-- The success body of the order readers: the computed total merged over
the first header row (absent when the header query matched nothing), plus
the mapped line items. -/
structure OrderPayload where
  total : JSVal
  header : Option OrderRow
  items : List OutItem
deriving DecidableEq, Repr

/-- Outcome of an order read: a 200 payload or a 404. -/
inductive ReadResult where
  | ok (p : OrderPayload)
  | notFound
deriving DecidableEq, Repr

/-- The WHERE clause of the header query: rows of `orders` whose order_id
matches the requested id. -/
def queryOrder (orders : List OrderRow) (id : Nat) : List OrderRow :=
  orders.filter (fun r => r.orderId == id)

/-- The GET /api/order handler (src/server.js lines 143-186), applied to
the rows the two store queries return: it never checks whether the header
exists, maps the joined rows, sums their total fields, and always answers
200 with `Object.assign with total spread over order.rows[0]`. -/
def getOrderHandler (headerRows : List OrderRow) (itemRows : List RawItem) :
    ReadResult :=
  .ok { total := sumTotals (itemRows.map formatItem)
        header := headerRows.head?
        items := itemRows.map formatItem }

/-- The GET /api/past-order/:order_id handler (src/server.js lines
262-315), applied to the rows the store queries return: it answers 404
when the header query matched no row, and otherwise builds the same
payload as GET /api/order. -/
def getPastOrderHandler (headerRows : List OrderRow)
    (itemRows : List RawItem) : ReadResult :=
  if headerRows.isEmpty then .notFound
  else
    .ok { total := sumTotals (itemRows.map formatItem)
          header := headerRows.head?
          items := itemRows.map formatItem }

/-- Descending insertion for `ORDER BY order_id DESC`: place the row
before the first row whose order_id is not larger. -/
def insertDesc (r : OrderRow) : List OrderRow → List OrderRow
  | [] => [r]
  | x :: xs => if x.orderId ≤ r.orderId then r :: x :: xs else x :: insertDesc r xs

/-- The ordering the past-orders query asks the store for:
`ORDER BY order_id DESC`. -/
def sortByIdDesc (orders : List OrderRow) : List OrderRow :=
  orders.foldr insertDesc []

/-- `parseInt(req.query.page, 10) || 1`: an absent or unparsable page
(NaN, modelled as `none`) and an explicit 0 are both falsy and default
to 1. -/
def normalizePage (pageParam : Option Int) : Int :=
  match pageParam with
  | none => 1
  | some i => if i = 0 then 1 else i

/-- The GET /api/past-orders handler (src/server.js lines 245-260): page
from the query (defaulted), offset `(page - 1) * 20`, and the query
`ORDER BY order_id DESC LIMIT 10 OFFSET ?` (a negative offset reads from
the start, as the store treats it as zero). -/
def getPastOrders (orders : List OrderRow) (pageParam : Option Int) :
    List OrderRow :=
  ((sortByIdDesc orders).drop ((normalizePage pageParam - 1) * 20).toNat).take 10

/-- Thirty order headers with ids 1..30, a store large enough to expose
the page size of the past-orders window. -/
def orders30 : List OrderRow :=
  (List.range 30).map (fun i => { orderId := i + 1, date := "2024-01-01", time := "10:00:00" })

end PadreGinos

section SanityChecks
open PadreGinos

example : mergeCart [⟨some 1, some "M"⟩, ⟨some 1, some "m"⟩, ⟨some 2, some "L"⟩] []
    = .ok [("1_m", 2), ("2_l", 1)] := rfl

example :
    (createOrder ⟨[], [], 5⟩ failSecond
      (some [⟨some 1, some "m"⟩, ⟨some 2, some "m"⟩, ⟨some 3, some "m"⟩])
      "2024-01-01" "10:00:00") =
    (.serverError "Failed to create order", ⟨[], [], 5⟩,
     [.beginTxn, .insertOrder "2024-01-01" "10:00:00",
      .insertDetail 5 "1_m" 1, .insertDetail 5 "2_m" 1, .rollback]) := rfl

example :
    (createOrder ⟨[], [], 1⟩ noFail (some [⟨some 1, some "M"⟩]) "2024-01-01" "10:00:00").1
      = .ok 1 := rfl

example :
    (createOrder ⟨[], [], 1⟩ noFail (some [⟨some 0, some "m"⟩]) "2024-01-01" "10:00:00")
      = (.serverError "Failed to create order", ⟨[], [], 1⟩,
         [.beginTxn, .insertOrder "2024-01-01" "10:00:00", .rollback]) := rfl

end SanityChecks

section MoreSanityChecks
open PadreGinos

example : dailyPick 5 [] = .typeError := rfl

example : getOrderHandler (queryOrder [] 5) [] =
    .ok { total := .num 0, header := none, items := [] } := rfl

example :
    getOrderHandler [⟨1, "2024-01-01", "10:00:00"⟩]
        [⟨7, "Hawaiian", .str "2", .str "3", .str "6", "m"⟩] =
      .ok { total := .str "06", header := some ⟨1, "2024-01-01", "10:00:00"⟩,
            items := [⟨7, "Hawaiian", .num 2, .num 3, .str "6", "m",
                       "/public/pizzas/7.webp"⟩] } := rfl

example : (getPastOrders orders30 (some 1)).length = 10 := rfl

example : (getPastOrders orders30 (some 2)).length = 10 := rfl

end MoreSanityChecks

namespace PadreGinos

/-! Lemmas about the cart-merging reduce. -/

theorem bump_sum (acc : List (String × Nat)) (key : String) :
    ((bump acc key).map Prod.snd).sum = ((acc.map Prod.snd)).sum + 1 := by
  induction acc with
  | nil => simp [bump]
  | cons p rest ih =>
    obtain ⟨k, q⟩ := p
    by_cases hk : k = key
    · simp [bump, hk]
      omega
    · simp [bump, hk, ih]
      omega

theorem bump_keys (acc : List (String × Nat)) (key : String) :
    (bump acc key).map Prod.fst =
      if key ∈ acc.map Prod.fst then acc.map Prod.fst
      else acc.map Prod.fst ++ [key] := by
  induction acc with
  | nil => simp [bump]
  | cons p rest ih =>
    obtain ⟨k, q⟩ := p
    by_cases hk : k = key
    · subst hk
      simp [bump]
    · have hk' : ¬ key = k := fun h => hk h.symm
      by_cases hmem : key ∈ rest.map Prod.fst
      · simp [bump, hk, ih, hmem, hk', List.mem_cons]
      · simp [bump, hk, ih, hmem, hk', List.mem_cons]

theorem bump_nodup (acc : List (String × Nat)) (key : String)
    (h : (acc.map Prod.fst).Nodup) : ((bump acc key).map Prod.fst).Nodup := by
  rw [bump_keys]
  by_cases hmem : key ∈ acc.map Prod.fst
  · simpa [hmem] using h
  · simp [hmem, List.nodup_append, h]

theorem mergeStep_ok_of_valid (acc : List (String × Nat)) (item : CartItem)
    (h : validItem item = true) :
    mergeStep acc item =
      .ok (bump acc (itemKey (item.pizzaId.getD 0)
        (lowerString (item.size.getD "")))) := by
  obtain ⟨pid, psz⟩ := item
  cases pid <;> cases psz <;> simp [validItem] at h
  obtain ⟨h1, h2⟩ := h
  simp [mergeStep, h1, h2]

theorem mergeStep_error_of_invalid (acc : List (String × Nat)) (item : CartItem)
    (h : validItem item = false) : ∃ e, mergeStep acc item = .error e := by
  obtain ⟨pid, psz⟩ := item
  cases psz with
  | none => exact ⟨_, rfl⟩
  | some s =>
    cases pid with
    | none => exact ⟨_, rfl⟩
    | some id =>
      simp [validItem] at h
      by_cases h0 : id = 0
      · exact ⟨"Invalid item data", by simp [mergeStep, h0]⟩
      · exact ⟨"Invalid item data", by simp [mergeStep, h0, h h0]⟩

theorem mergeStep_ok_bump (acc : List (String × Nat)) (item : CartItem)
    (acc2 : List (String × Nat)) (h : mergeStep acc item = .ok acc2) :
    ∃ key, acc2 = bump acc key := by
  obtain ⟨pid, psz⟩ := item
  cases pid <;> cases psz <;> simp [mergeStep] at h
  rename_i id s
  by_cases hbad : id = 0 ∨ lowerString s = ""
  · simp [hbad] at h
  · simp [hbad] at h
    exact ⟨_, h.symm⟩

theorem mergeCart_ok_of_valid :
    ∀ (items : List CartItem) (acc : List (String × Nat)),
      (∀ i ∈ items, validItem i = true) →
      ∃ merged, mergeCart items acc = .ok merged := by
  intro items
  induction items with
  | nil => exact fun acc _ => ⟨acc, rfl⟩
  | cons item rest ih =>
    intro acc h
    have hv := h item (List.mem_cons_self item rest)
    simp only [mergeCart, mergeStep_ok_of_valid acc item hv]
    exact ih _ (fun i hi => h i (List.mem_cons_of_mem item hi))

theorem mergeCart_sum :
    ∀ (items : List CartItem) (acc merged : List (String × Nat)),
      mergeCart items acc = .ok merged →
      (merged.map Prod.snd).sum = (acc.map Prod.snd).sum + items.length := by
  intro items
  induction items with
  | nil =>
    intro acc merged h
    simp only [mergeCart] at h
    cases h
    simp
  | cons item rest ih =>
    intro acc merged h
    simp only [mergeCart] at h
    cases hstep : mergeStep acc item with
    | error e => rw [hstep] at h; cases h
    | ok acc2 =>
      rw [hstep] at h
      obtain ⟨key, hkey⟩ := mergeStep_ok_bump acc item acc2 hstep
      have hs := ih acc2 merged h
      rw [hkey, bump_sum] at hs
      simp [hs]
      omega

theorem mergeCart_nodup :
    ∀ (items : List CartItem) (acc merged : List (String × Nat)),
      mergeCart items acc = .ok merged →
      (acc.map Prod.fst).Nodup → (merged.map Prod.fst).Nodup := by
  intro items
  induction items with
  | nil =>
    intro acc merged h hn
    simp only [mergeCart] at h
    cases h
    exact hn
  | cons item rest ih =>
    intro acc merged h hn
    simp only [mergeCart] at h
    cases hstep : mergeStep acc item with
    | error e => rw [hstep] at h; cases h
    | ok acc2 =>
      rw [hstep] at h
      obtain ⟨key, hkey⟩ := mergeStep_ok_bump acc item acc2 hstep
      exact ih acc2 merged h (hkey ▸ bump_nodup acc key hn)

theorem mergeCart_error_of_invalid :
    ∀ (items : List CartItem) (acc : List (String × Nat)),
      (∃ i ∈ items, validItem i = false) →
      ∃ e, mergeCart items acc = .error e := by
  intro items
  induction items with
  | nil => rintro acc ⟨i, hi, _⟩; cases hi
  | cons item rest ih =>
    rintro acc ⟨i, hi, hbad⟩
    cases hv : validItem item with
    | false =>
      obtain ⟨e, he⟩ := mergeStep_error_of_invalid acc item hv
      exact ⟨e, by simp only [mergeCart, he]⟩
    | true =>
      simp only [mergeCart, mergeStep_ok_of_valid acc item hv]
      refine ih _ ⟨i, ?_, hbad⟩
      rcases List.mem_cons.mp hi with h | h
      · rw [h] at hbad; rw [hbad] at hv; cases hv
      · exact h

end PadreGinos

namespace PadreGinos

/-! Lemmas about the transaction of createOrder. -/

theorem insertDetails_some (fs : FailSpec) (oid : Nat) :
    ∀ (merged : List (String × Nat)) (k : Nat) (pending : Store)
      (tr tr2 : List StoreCall) (final : Store),
      insertDetails fs oid merged k pending tr = (some final, tr2) →
      final.orders = pending.orders ∧
      final.nextOrderId = pending.nextOrderId ∧
      final.details = pending.details ++
        merged.map (fun p => { orderId := oid, pizzaId := p.1, quantity := p.2 }) := by
  intro merged
  induction merged with
  | nil =>
    intro k pending tr tr2 final h
    simp only [insertDetails] at h
    obtain ⟨h1, _⟩ := Prod.mk.injEq .. ▸ h
    cases h1
    simp
  | cons p rest ih =>
    intro k pending tr tr2 final h
    obtain ⟨key, qty⟩ := p
    simp only [insertDetails] at h
    cases hf : fs.detailFails k with
    | true => rw [hf] at h; simp at h
    | false =>
      rw [hf] at h
      simp only [Bool.false_eq_true, if_false] at h
      obtain ⟨h1, h2, h3⟩ := ih (k + 1) _ _ _ _ h
      refine ⟨h1, h2, ?_⟩
      simp only [h3]
      simp

/-- Exhaustive case analysis of createOrder on a nonempty cart: a failing
header insert, a throwing merge, a failing detail insert (all three
committing nothing and rolling back), or full success. -/
theorem createOrder_outcomes (st : Store) (fs : FailSpec) (items : List CartItem)
    (date time : String) (h0 : items.length ≠ 0) :
    (fs.headerFails = true ∧
      createOrder st fs (some items) date time =
        (.serverError "Failed to create order", st,
          [.beginTxn, .insertOrder date time, .rollback])) ∨
    (∃ e, fs.headerFails = false ∧ mergeCart items [] = .error e ∧
      createOrder st fs (some items) date time =
        (.serverError "Failed to create order", st,
          [.beginTxn, .insertOrder date time, .rollback])) ∨
    (∃ merged tr2, fs.headerFails = false ∧ mergeCart items [] = .ok merged ∧
      insertDetails fs st.nextOrderId merged 1 (pendingStore st date time)
          [.beginTxn, .insertOrder date time] = (none, tr2) ∧
      createOrder st fs (some items) date time =
        (.serverError "Failed to create order", st, tr2 ++ [.rollback])) ∨
    (∃ merged tr2 final, fs.headerFails = false ∧ mergeCart items [] = .ok merged ∧
      insertDetails fs st.nextOrderId merged 1 (pendingStore st date time)
          [.beginTxn, .insertOrder date time] = (some final, tr2) ∧
      createOrder st fs (some items) date time =
        (.ok st.nextOrderId, final, tr2 ++ [.commit])) := by
  cases hh : fs.headerFails with
  | true =>
    left
    exact ⟨rfl, by simp only [createOrder, if_neg h0, hh, if_true]⟩
  | false =>
    right
    cases hm : mergeCart items [] with
    | error e =>
      left
      refine ⟨e, rfl, rfl, ?_⟩
      simp only [createOrder, if_neg h0, hh, Bool.false_eq_true, if_false, hm]
    | ok merged =>
      right
      cases hi : insertDetails fs st.nextOrderId merged 1 (pendingStore st date time)
          [.beginTxn, .insertOrder date time] with
      | mk o tr2 =>
        cases o with
        | none =>
          left
          refine ⟨merged, tr2, rfl, rfl, hi, ?_⟩
          simp only [createOrder, if_neg h0, hh, Bool.false_eq_true, if_false, hm, hi]
        | some final =>
          right
          refine ⟨merged, tr2, final, rfl, rfl, hi, ?_⟩
          simp only [createOrder, if_neg h0, hh, Bool.false_eq_true, if_false, hm, hi]

/-! Lemmas about the descending sort of the past-orders query. -/

theorem mem_insertDesc (y r : OrderRow) :
    ∀ (l : List OrderRow), y ∈ insertDesc r l ↔ y = r ∨ y ∈ l := by
  intro l
  induction l with
  | nil => simp [insertDesc]
  | cons x xs ih =>
    by_cases hle : x.orderId ≤ r.orderId
    · simp only [insertDesc, if_pos hle, List.mem_cons]
    · simp only [insertDesc, if_neg hle, List.mem_cons, ih]
      tauto

theorem pairwise_insertDesc (r : OrderRow) (l : List OrderRow)
    (h : l.Pairwise (fun a b => b.orderId ≤ a.orderId)) :
    (insertDesc r l).Pairwise (fun a b => b.orderId ≤ a.orderId) := by
  induction l with
  | nil => simp [insertDesc]
  | cons x xs ih =>
    rw [List.pairwise_cons] at h
    obtain ⟨hx, hxs⟩ := h
    by_cases hle : x.orderId ≤ r.orderId
    · simp only [insertDesc, if_pos hle]
      refine List.Pairwise.cons ?_ (List.Pairwise.cons hx hxs)
      intro y hy
      rcases List.mem_cons.mp hy with hy | hy
      · rw [hy]; exact hle
      · exact le_trans (hx y hy) hle
    · simp only [insertDesc, if_neg hle]
      refine List.Pairwise.cons ?_ (ih hxs)
      intro y hy
      rcases (mem_insertDesc y r xs).mp hy with hy | hy
      · rw [hy]; exact Nat.le_of_lt (Nat.lt_of_not_le hle)
      · exact hx y hy

theorem pairwise_sortByIdDesc (orders : List OrderRow) :
    (sortByIdDesc orders).Pairwise (fun a b => b.orderId ≤ a.orderId) := by
  induction orders with
  | nil => simp [sortByIdDesc]
  | cons x xs ih => exact pairwise_insertDesc x _ ih

end PadreGinos

namespace PadreGinos

/-- Claim C1: for every cart accepted by POST /api/order, order creation is a
single all-or-nothing transaction. Whenever the handler answers with the 500
failure (any step failing after BEGIN, a failing detail insert included) the
committed store is unchanged — no Order row and no OrderDetail row from the
request persists — and the call trace ends in ROLLBACK; on success the
committed store gains exactly one Order row (the header carrying the
generated id) and exactly one OrderDetail row per normalized cart line, and
the trace ends in COMMIT. -/
theorem createOrder_atomic (st : Store) (fs : FailSpec) (items : List CartItem)
    (date time : String) (h : items ≠ []) :
    (∀ msg, (createOrder st fs (some items) date time).1 = .serverError msg →
      (createOrder st fs (some items) date time).2.1 = st ∧
      ∃ tr0, (createOrder st fs (some items) date time).2.2 = tr0 ++ [.rollback]) ∧
    (∀ oid, (createOrder st fs (some items) date time).1 = .ok oid →
      ∃ merged, mergeCart items [] = .ok merged ∧
        (createOrder st fs (some items) date time).2.1.orders =
          st.orders ++ [{ orderId := oid, date := date, time := time }] ∧
        (createOrder st fs (some items) date time).2.1.details =
          st.details ++ merged.map
            (fun p => { orderId := oid, pizzaId := p.1, quantity := p.2 }) ∧
        ∃ tr0, (createOrder st fs (some items) date time).2.2 = tr0 ++ [.commit]) := by
  have h0 : items.length ≠ 0 := by simpa [List.length_eq_zero] using h
  rcases createOrder_outcomes st fs items date time h0 with
    ⟨_, heq⟩ | ⟨e, _, hm, heq⟩ | ⟨merged, tr2, _, hm, hi, heq⟩ |
    ⟨merged, tr2, final, _, hm, hi, heq⟩
  · rw [heq]
    refine ⟨fun msg _ => ⟨rfl, [.beginTxn, .insertOrder date time], rfl⟩, ?_⟩
    intro oid hok
    simp at hok
  · rw [heq]
    refine ⟨fun msg _ => ⟨rfl, [.beginTxn, .insertOrder date time], rfl⟩, ?_⟩
    intro oid hok
    simp at hok
  · rw [heq]
    refine ⟨fun msg _ => ⟨rfl, tr2, rfl⟩, ?_⟩
    intro oid hok
    simp at hok
  · rw [heq]
    constructor
    · intro msg hmsg
      simp at hmsg
    · intro oid hok
      simp only [CreateResult.ok.injEq] at hok
    
      obtain ⟨ho, hn, hd⟩ := insertDetails_some fs st.nextOrderId merged 1
        (pendingStore st date time) [.beginTxn, .insertOrder date time] tr2 final hi
      subst hok
      refine ⟨merged, hm, ?_, ?_, tr2, rfl⟩
      · simpa [pendingStore] using ho
      · simpa [pendingStore] using hd

/-- Concrete instantiation of the atomicity theorem on a one-line cart
against an empty store with no injected failure. -/
theorem createOrder_atomic_witness :
    (([⟨some 1, some "M"⟩] : List CartItem) ≠ []) ∧
    ((∀ msg,
        (createOrder ⟨[], [], 1⟩ noFail (some [⟨some 1, some "M"⟩])
          "2024-01-01" "10:00:00").1 = .serverError msg →
        (createOrder ⟨[], [], 1⟩ noFail (some [⟨some 1, some "M"⟩])
          "2024-01-01" "10:00:00").2.1 = ⟨[], [], 1⟩ ∧
        ∃ tr0, (createOrder ⟨[], [], 1⟩ noFail (some [⟨some 1, some "M"⟩])
          "2024-01-01" "10:00:00").2.2 = tr0 ++ [.rollback]) ∧
      (∀ oid,
        (createOrder ⟨[], [], 1⟩ noFail (some [⟨some 1, some "M"⟩])
          "2024-01-01" "10:00:00").1 = .ok oid →
        ∃ merged, mergeCart [⟨some 1, some "M"⟩] [] = .ok merged ∧
          (createOrder ⟨[], [], 1⟩ noFail (some [⟨some 1, some "M"⟩])
            "2024-01-01" "10:00:00").2.1.orders =
            ([] : List OrderRow) ++
              [{ orderId := oid, date := "2024-01-01", time := "10:00:00" }] ∧
          (createOrder ⟨[], [], 1⟩ noFail (some [⟨some 1, some "M"⟩])
            "2024-01-01" "10:00:00").2.1.details =
            ([] : List DetailRow) ++ merged.map
              (fun p => { orderId := oid, pizzaId := p.1, quantity := p.2 }) ∧
          ∃ tr0, (createOrder ⟨[], [], 1⟩ noFail (some [⟨some 1, some "M"⟩])
            "2024-01-01" "10:00:00").2.2 = tr0 ++ [.commit])) :=
  ⟨by decide,
   createOrder_atomic ⟨[], [], 1⟩ noFail [⟨some 1, some "M"⟩]
     "2024-01-01" "10:00:00" (by decide)⟩

/-- Claim C4: on every successful POST /api/order the response orderId is the
identifier the store generated for the inserted header row, and every
order_details row inserted in the transaction references that same id. -/
theorem createOrder_orderId_ref (st : Store) (fs : FailSpec)
    (items : List CartItem) (date time : String) (oid : Nat)
    (h : items ≠ [])
    (hok : (createOrder st fs (some items) date time).1 = .ok oid) :
    oid = st.nextOrderId ∧
    (createOrder st fs (some items) date time).2.1.orders =
      st.orders ++ [{ orderId := oid, date := date, time := time }] ∧
    ∃ newDetails,
      (createOrder st fs (some items) date time).2.1.details =
        st.details ++ newDetails ∧
      ∀ d ∈ newDetails, d.orderId = oid := by
  have h0 : items.length ≠ 0 := by simpa [List.length_eq_zero] using h
  rcases createOrder_outcomes st fs items date time h0 with
    ⟨_, heq⟩ | ⟨e, _, hm, heq⟩ | ⟨merged, tr2, _, hm, hi, heq⟩ |
    ⟨merged, tr2, final, _, hm, hi, heq⟩
  · rw [heq] at hok; simp at hok
  · rw [heq] at hok; simp at hok
  · rw [heq] at hok; simp at hok
  · rw [heq] at hok ⊢
    simp only [CreateResult.ok.injEq] at hok
    subst hok
    obtain ⟨ho, hn, hd⟩ := insertDetails_some fs st.nextOrderId merged 1
      (pendingStore st date time) [.beginTxn, .insertOrder date time] tr2 final hi
    refine ⟨rfl, by simpa [pendingStore] using ho,
      merged.map (fun p => { orderId := st.nextOrderId, pizzaId := p.1, quantity := p.2 }),
      by simpa [pendingStore] using hd, ?_⟩
    intro d hd2
    obtain ⟨p, _, hp⟩ := List.mem_map.mp hd2
    rw [← hp]

/-- Concrete instantiation of the orderId theorem: the store generates id 1
and the single detail row references it. -/
theorem createOrder_orderId_ref_witness :
    (([⟨some 1, some "M"⟩] : List CartItem) ≠ []) ∧
    ((createOrder ⟨[], [], 1⟩ noFail (some [⟨some 1, some "M"⟩])
        "2024-01-01" "10:00:00").1 = .ok 1) ∧
    (1 = (1 : Nat) ∧
      (createOrder ⟨[], [], 1⟩ noFail (some [⟨some 1, some "M"⟩])
        "2024-01-01" "10:00:00").2.1.orders =
        ([] : List OrderRow) ++
          [{ orderId := 1, date := "2024-01-01", time := "10:00:00" }] ∧
      ∃ newDetails,
        (createOrder ⟨[], [], 1⟩ noFail (some [⟨some 1, some "M"⟩])
          "2024-01-01" "10:00:00").2.1.details =
          ([] : List DetailRow) ++ newDetails ∧
        ∀ d ∈ newDetails, d.orderId = 1) :=
  ⟨by decide, by decide,
   createOrder_orderId_ref ⟨[], [], 1⟩ noFail [⟨some 1, some "M"⟩]
     "2024-01-01" "10:00:00" 1 (by decide) (by decide)⟩

end PadreGinos

namespace PadreGinos

/-- Claim C2: for every non-empty cart whose lines all carry a (truthy)
pizza id and size, the merging reduce succeeds and its output satisfies:
the quantities sum to the input length, no two output lines share the same
composite (pizzaTypeId, lowercased size) key, and two input lines with the
same id whose sizes agree up to letter case are grouped under the same key
(hence merge into the same single output line). -/
theorem mergeCart_normalizes (items : List CartItem) (h : items ≠ [])
    (hv : ∀ i ∈ items, validItem i = true) :
    ∃ merged, mergeCart items [] = .ok merged ∧
      (merged.map Prod.snd).sum = items.length ∧
      (merged.map Prod.fst).Nodup ∧
      ∀ i1 ∈ items, ∀ i2 ∈ items, i1.pizzaId = i2.pizzaId →
        lowerString (i1.size.getD "") = lowerString (i2.size.getD "") →
        itemKey (i1.pizzaId.getD 0) (lowerString (i1.size.getD "")) =
          itemKey (i2.pizzaId.getD 0) (lowerString (i2.size.getD "")) := by
  obtain ⟨merged, hm⟩ := mergeCart_ok_of_valid items [] hv
  refine ⟨merged, hm, ?_, ?_, ?_⟩
  · simpa using mergeCart_sum items [] merged hm
  · exact mergeCart_nodup items [] merged hm (by simp)
  · intro i1 _ i2 _ hid hsz
    rw [itemKey, itemKey, hid, hsz]

/-- Concrete instantiation of the normalizer theorem on the example
cart: "Large" and "large" for pizza 1 merge, pizza 2 stays separate. -/
theorem mergeCart_normalizes_witness :
    (([⟨some 1, some "Large"⟩, ⟨some 1, some "large"⟩, ⟨some 2, some "M"⟩]
        : List CartItem) ≠ []) ∧
    (∀ i ∈ ([⟨some 1, some "Large"⟩, ⟨some 1, some "large"⟩, ⟨some 2, some "M"⟩]
        : List CartItem), validItem i = true) ∧
    (∃ merged,
      mergeCart [⟨some 1, some "Large"⟩, ⟨some 1, some "large"⟩, ⟨some 2, some "M"⟩] []
        = .ok merged ∧
      (merged.map Prod.snd).sum =
        ([⟨some 1, some "Large"⟩, ⟨some 1, some "large"⟩, ⟨some 2, some "M"⟩]
          : List CartItem).length ∧
      (merged.map Prod.fst).Nodup ∧
      ∀ i1 ∈ ([⟨some 1, some "Large"⟩, ⟨some 1, some "large"⟩, ⟨some 2, some "M"⟩]
          : List CartItem),
        ∀ i2 ∈ ([⟨some 1, some "Large"⟩, ⟨some 1, some "large"⟩, ⟨some 2, some "M"⟩]
          : List CartItem), i1.pizzaId = i2.pizzaId →
        lowerString (i1.size.getD "") = lowerString (i2.size.getD "") →
        itemKey (i1.pizzaId.getD 0) (lowerString (i1.size.getD "")) =
          itemKey (i2.pizzaId.getD 0) (lowerString (i2.size.getD ""))) :=
  ⟨by decide, by decide,
   mergeCart_normalizes [⟨some 1, some "Large"⟩, ⟨some 1, some "large"⟩, ⟨some 2, some "M"⟩]
     (by decide) (by decide)⟩

/-- Claim C3 (counterexample): a cart whose only line lacks a pizza id. The
claim says the failure is detected before any store interaction, with zero
store calls; the handler in fact issues BEGIN, the order-header insert and
ROLLBACK before answering. -/
theorem createOrder_invalid_line_calls :
    (createOrder ⟨[], [], 1⟩ noFail (some [⟨none, some "m"⟩])
        "2024-01-01" "10:00:00").2.2 =
      [.beginTxn, .insertOrder "2024-01-01" "10:00:00", .rollback] ∧
    (createOrder ⟨[], [], 1⟩ noFail (some [⟨none, some "m"⟩])
        "2024-01-01" "10:00:00").2.2 ≠ [] :=
  ⟨rfl, by decide⟩

/-- Claim C3 (amended): a cart line lacking a pizza id or a size makes the
request fail — but the throw happens inside the transaction, after BEGIN
and the order-header insert have been issued; the handler answers the
generic 500, the catch path rolls back, so no Order or OrderDetail row
persists, and the trace is exactly BEGIN, header insert, ROLLBACK rather
than empty. -/
theorem createOrder_invalid_line (st : Store) (fs : FailSpec)
    (items : List CartItem) (date time : String)
    (h : items ≠ []) (hh : fs.headerFails = false)
    (item : CartItem) (hmem : item ∈ items)
    (hbad : item.pizzaId = none ∨ item.size = none) :
    (createOrder st fs (some items) date time).1 =
      .serverError "Failed to create order" ∧
    (createOrder st fs (some items) date time).2.1 = st ∧
    (createOrder st fs (some items) date time).2.2 =
      [.beginTxn, .insertOrder date time, .rollback] := by
  have h0 : items.length ≠ 0 := by simpa [List.length_eq_zero] using h
  have hinv : validItem item = false := by
    obtain ⟨pid, psz⟩ := item
    rcases hbad with hb | hb
    · simp only at hb
      subst hb
      cases psz <;> rfl
    · simp only at hb
      subst hb
      cases pid <;> rfl
  obtain ⟨e, he⟩ := mergeCart_error_of_invalid items [] ⟨item, hmem, hinv⟩
  rcases createOrder_outcomes st fs items date time h0 with
    ⟨hh2, _⟩ | ⟨e2, _, hm, heq⟩ | ⟨merged, tr2, _, hm, hi, heq⟩ |
    ⟨merged, tr2, final, _, hm, hi, heq⟩
  · rw [hh] at hh2; cases hh2
  · rw [heq]
    exact ⟨rfl, rfl, rfl⟩
  · rw [he] at hm; cases hm
  · rw [he] at hm; cases hm

/-- Concrete instantiation of the amended C3 theorem on a one-line cart
missing its size. -/
theorem createOrder_invalid_line_witness :
    (([⟨some 3, none⟩] : List CartItem) ≠ []) ∧
    (noFail.headerFails = false) ∧
    ((⟨some 3, none⟩ : CartItem) ∈ ([⟨some 3, none⟩] : List CartItem)) ∧
    ((⟨some 3, none⟩ : CartItem).pizzaId = none ∨
      (⟨some 3, none⟩ : CartItem).size = none) ∧
    ((createOrder ⟨[], [], 1⟩ noFail (some [⟨some 3, none⟩])
        "2024-01-01" "10:00:00").1 = .serverError "Failed to create order" ∧
      (createOrder ⟨[], [], 1⟩ noFail (some [⟨some 3, none⟩])
        "2024-01-01" "10:00:00").2.1 = ⟨[], [], 1⟩ ∧
      (createOrder ⟨[], [], 1⟩ noFail (some [⟨some 3, none⟩])
        "2024-01-01" "10:00:00").2.2 =
        [.beginTxn, .insertOrder "2024-01-01" "10:00:00", .rollback]) :=
  ⟨by decide, by decide, by decide, by decide,
   createOrder_invalid_line ⟨[], [], 1⟩ noFail [⟨some 3, none⟩]
     "2024-01-01" "10:00:00" (by decide) (by decide) ⟨some 3, none⟩
     (by decide) (by decide)⟩

/-- Claim C10: a cart line whose pizza id is the number 0, or whose size
lowercases to the empty string, trips the truthiness check `if (!id || !size)`
and is treated as missing: the request fails with the 500 error and the
committed store is unchanged — no order is persisted. -/
theorem createOrder_falsy_rejected (st : Store) (fs : FailSpec)
    (items : List CartItem) (date time : String)
    (h : items ≠ [])
    (item : CartItem) (hmem : item ∈ items)
    (hbad : item.pizzaId = some 0 ∨
      ∃ s, item.size = some s ∧ lowerString s = "") :
    (∃ msg, (createOrder st fs (some items) date time).1 = .serverError msg) ∧
    (createOrder st fs (some items) date time).2.1 = st := by
  have h0 : items.length ≠ 0 := by simpa [List.length_eq_zero] using h
  have hinv : validItem item = false := by
    obtain ⟨pid, psz⟩ := item
    rcases hbad with hb | ⟨s, hs, hlow⟩
    · simp only at hb
      subst hb
      cases psz <;> simp [validItem]
    · simp only at hs
      subst hs
      cases pid <;> simp [validItem, hlow]
  obtain ⟨e, he⟩ := mergeCart_error_of_invalid items [] ⟨item, hmem, hinv⟩
  rcases createOrder_outcomes st fs items date time h0 with
    ⟨_, heq⟩ | ⟨e2, _, hm, heq⟩ | ⟨merged, tr2, _, hm, hi, heq⟩ |
    ⟨merged, tr2, final, _, hm, hi, heq⟩
  · rw [heq]
    exact ⟨⟨"Failed to create order", rfl⟩, rfl⟩
  · rw [heq]
    exact ⟨⟨"Failed to create order", rfl⟩, rfl⟩
  · rw [heq]
    exact ⟨⟨"Failed to create order", rfl⟩, rfl⟩
  · rw [he] at hm; cases hm

/-- Concrete instantiation of the falsiness theorem: the well-formed pizza
id 0 is rejected and nothing is persisted. -/
theorem createOrder_falsy_rejected_witness :
    (([⟨some 0, some "m"⟩] : List CartItem) ≠ []) ∧
    ((⟨some 0, some "m"⟩ : CartItem) ∈ ([⟨some 0, some "m"⟩] : List CartItem)) ∧
    ((⟨some 0, some "m"⟩ : CartItem).pizzaId = some 0 ∨
      ∃ s, (⟨some 0, some "m"⟩ : CartItem).size = some s ∧ lowerString s = "") ∧
    ((∃ msg, (createOrder ⟨[], [], 1⟩ noFail (some [⟨some 0, some "m"⟩])
        "2024-01-01" "10:00:00").1 = .serverError msg) ∧
      (createOrder ⟨[], [], 1⟩ noFail (some [⟨some 0, some "m"⟩])
        "2024-01-01" "10:00:00").2.1 = ⟨[], [], 1⟩) :=
  ⟨by decide, by decide, Or.inl (by decide),
   createOrder_falsy_rejected ⟨[], [], 1⟩ noFail [⟨some 0, some "m"⟩]
     "2024-01-01" "10:00:00" (by decide) ⟨some 0, some "m"⟩ (by decide)
     (Or.inl (by decide))⟩

end PadreGinos

namespace PadreGinos

/-- Claim C5 (behavior at the failing input): on an empty catalog the daily
pick indexes past the rows (in JavaScript the NaN index yields undefined)
and the field read fails with a TypeError surfaced as a generic 500 — it
never produces the explicit EmptyCatalog error the spec mandates. -/
theorem dailyPick_empty_catalog (d : Nat) :
    dailyPick d [] = .typeError ∧ dailyPick d [] ≠ .emptyCatalog :=
  ⟨rfl, by simp [dailyPick]⟩

/-- Claim C6: on a non-empty catalog the daily pick is the row at index
`daysSinceEpoch mod N`; any two timestamps with the same day count (the
same UTC calendar day) select the same pizza; and the day index advances by
exactly one mod N across a day boundary. -/
theorem dailyPick_daily (rows : List PizzaType) (h : rows ≠ []) (t1 t2 : Nat) :
    (∃ p, rows.get? (pickIndex t1 rows.length) = some p ∧
      dailyPick (daysSinceEpoch t1) rows = .ok p) ∧
    (daysSinceEpoch t1 = daysSinceEpoch t2 →
      dailyPick (daysSinceEpoch t1) rows = dailyPick (daysSinceEpoch t2) rows) ∧
    (∀ d : Nat, (d + 1) % rows.length = (d % rows.length + 1) % rows.length) := by
  have hlen : 0 < rows.length := List.length_pos.mpr h
  refine ⟨?_, ?_, ?_⟩
  · have hlt : daysSinceEpoch t1 % rows.length < rows.length :=
      Nat.mod_lt _ hlen
    refine ⟨rows.get ⟨daysSinceEpoch t1 % rows.length, hlt⟩, ?_, ?_⟩
    · exact List.get?_eq_get hlt
    · simp only [dailyPick, List.get?_eq_get hlt]
  · intro hd
    rw [hd]
  · intro d
    simp [Nat.add_mod]

/-- Concrete instantiation of the daily-pick theorem on a two-pizza catalog
and two timestamps one millisecond apart inside the same day. -/
theorem dailyPick_daily_witness :
    (([⟨1, "Margherita", "Classic", "tomato"⟩, ⟨2, "Hawaiian", "Special", "ham"⟩]
        : List PizzaType) ≠ []) ∧
    ((∃ p, ([⟨1, "Margherita", "Classic", "tomato"⟩,
            ⟨2, "Hawaiian", "Special", "ham"⟩] : List PizzaType).get?
          (pickIndex 86400001
            ([⟨1, "Margherita", "Classic", "tomato"⟩,
              ⟨2, "Hawaiian", "Special", "ham"⟩] : List PizzaType).length) = some p ∧
        dailyPick (daysSinceEpoch 86400001)
          [⟨1, "Margherita", "Classic", "tomato"⟩,
           ⟨2, "Hawaiian", "Special", "ham"⟩] = .ok p) ∧
      (daysSinceEpoch 86400001 = daysSinceEpoch 86400002 →
        dailyPick (daysSinceEpoch 86400001)
          [⟨1, "Margherita", "Classic", "tomato"⟩,
           ⟨2, "Hawaiian", "Special", "ham"⟩] =
        dailyPick (daysSinceEpoch 86400002)
          [⟨1, "Margherita", "Classic", "tomato"⟩,
           ⟨2, "Hawaiian", "Special", "ham"⟩]) ∧
      (∀ d : Nat,
        (d + 1) % ([⟨1, "Margherita", "Classic", "tomato"⟩,
            ⟨2, "Hawaiian", "Special", "ham"⟩] : List PizzaType).length =
          (d % ([⟨1, "Margherita", "Classic", "tomato"⟩,
              ⟨2, "Hawaiian", "Special", "ham"⟩] : List PizzaType).length + 1) %
            ([⟨1, "Margherita", "Classic", "tomato"⟩,
              ⟨2, "Hawaiian", "Special", "ham"⟩] : List PizzaType).length)) :=
  ⟨by decide,
   dailyPick_daily
     [⟨1, "Margherita", "Classic", "tomato"⟩, ⟨2, "Hawaiian", "Special", "ham"⟩]
     (by decide) 86400001 86400002⟩

/-- Claim C7 (counterexample): reading a nonexistent order id through
GET /api/order answers 200 with an empty payload (total 0, no header, no
items), not a 404, refuting the claim for this retrieval endpoint. -/
theorem getOrder_missing_empty_success :
    getOrderHandler (queryOrder [] 5) [] =
      .ok { total := .num 0, header := none, items := [] } := rfl

/-- Claim C7 (amended): for an order id matching no header row,
GET /api/past-order/:order_id answers 404, while GET /api/order answers an
empty 200 payload whose header field is absent. -/
theorem missingOrder_readers (orders : List OrderRow) (id : Nat)
    (itemRows : List RawItem) (h : ∀ r ∈ orders, r.orderId ≠ id) :
    getPastOrderHandler (queryOrder orders id) itemRows = .notFound ∧
    getOrderHandler (queryOrder orders id) itemRows =
      .ok { total := sumTotals (itemRows.map formatItem), header := none,
            items := itemRows.map formatItem } := by
  have hq : queryOrder orders id = [] := by
    refine List.filter_eq_nil_iff.mpr ?_
    intro a ha
    simp [h a ha]
  rw [hq]
  exact ⟨rfl, rfl⟩

/-- Concrete instantiation of the not-found theorem: order 5 is absent from
a store holding only order 1. -/
theorem missingOrder_readers_witness :
    (∀ r ∈ ([⟨1, "2024-01-01", "10:00:00"⟩] : List OrderRow), r.orderId ≠ 5) ∧
    (getPastOrderHandler (queryOrder [⟨1, "2024-01-01", "10:00:00"⟩] 5) [] =
        .notFound ∧
      getOrderHandler (queryOrder [⟨1, "2024-01-01", "10:00:00"⟩] 5) [] =
        .ok { total := sumTotals (([] : List RawItem).map formatItem),
              header := none, items := ([] : List RawItem).map formatItem }) :=
  ⟨by decide,
   missingOrder_readers [⟨1, "2024-01-01", "10:00:00"⟩] 5 [] (by decide)⟩

/-- Claim C8 (counterexample): when the store returns quantity, price and
the per-line total as the strings "2", "3", "6", the reader coerces quantity
and price to the numbers 2 and 3 but leaves the per-line total as the text
"6", and the order total becomes the string "06" (JavaScript concatenation),
not the number 6 = 2 * 3. -/
theorem getOrder_text_total :
    getOrderHandler [{ orderId := 1, date := "2024-01-01", time := "10:00:00" }]
        [{ pizzaTypeId := 7, name := "Hawaiian", quantity := .str "2",
           price := .str "3", total := .str "6", size := "m" }] =
      .ok { total := .str "06",
            header := some { orderId := 1, date := "2024-01-01", time := "10:00:00" },
            items := [{ pizzaTypeId := 7, name := "Hawaiian", quantity := .num 2,
                        price := .num 3, total := .str "6", size := "m",
                        image := "/public/pizzas/7.webp" }] } := rfl

/-- Claim C8 (amended): the readers coerce the quantity and price of each line
with unary plus; the per-line total field is passed through exactly as the
store returned it (not coerced), and the order total is the JavaScript sum
(fold of the dynamic plus) of those store-returned per-line totals — so it
is the numeric sum of the subtotals only when the store returns them as
numbers. GET /api/past-order builds the same payload behind its 404 guard. -/
theorem getOrder_numeric_fields (headerRows : List OrderRow)
    (itemRows : List RawItem) :
    (∃ p, getOrderHandler headerRows itemRows = .ok p ∧
      p.items.map OutItem.quantity = itemRows.map (fun r => jsToNum r.quantity) ∧
      p.items.map OutItem.price = itemRows.map (fun r => jsToNum r.price) ∧
      p.items.map OutItem.total = itemRows.map RawItem.total ∧
      p.total = (itemRows.map RawItem.total).foldl jsAdd (.num 0)) ∧
    getPastOrderHandler headerRows itemRows =
      (if headerRows.isEmpty then .notFound
       else getOrderHandler headerRows itemRows) := by
  constructor
  · refine ⟨_, rfl, ?_, ?_, ?_, ?_⟩
    · rw [List.map_map]; rfl
    · rw [List.map_map]; rfl
    · rw [List.map_map]; rfl
    · show sumTotals (itemRows.map formatItem) = _
      rw [sumTotals, List.foldl_map, List.foldl_map]
      rfl
  · rw [getPastOrderHandler]
    by_cases he : headerRows.isEmpty
    · rw [if_pos he, if_pos he]
    · rw [if_neg he, if_neg he]
      rfl

/-- Claim C9 (counterexample): a store holding 30 orders; page 1 returns 10
rows, not the fixed page size of 20 the claim states. -/
theorem getPastOrders_page_size :
    (getPastOrders orders30 (some 1)).length = 10 ∧
    (getPastOrders orders30 (some 1)).length ≠ 20 :=
  ⟨rfl, by decide⟩

/-- Claim C9 (amended): GET /api/past-orders returns the window of at most
10 rows (the LIMIT of the query, not the stated page size of 20) starting at
offset (page - 1) * 20 of the orders sorted by descending order_id, with
the page parameter defaulting to 1 when absent or unparsable. -/
theorem getPastOrders_window (orders : List OrderRow) (pageParam : Option Int) :
    getPastOrders orders pageParam =
      ((sortByIdDesc orders).drop
        ((normalizePage pageParam - 1) * 20).toNat).take 10 ∧
    (getPastOrders orders pageParam).length ≤ 10 ∧
    (getPastOrders orders pageParam).Pairwise (fun a b => b.orderId ≤ a.orderId) ∧
    getPastOrders orders none = getPastOrders orders (some 1) := by
  refine ⟨rfl, List.length_take_le _ _, ?_, rfl⟩
  exact (pairwise_sortByIdDesc orders).sublist
    ((List.take_sublist _ _).trans (List.drop_sublist _ _))

end PadreGinos
